import Mathlib

/-!
# MMElemental — shallow embedding and verification

Shallow embedding of the MMElemental molecule interchange layer
(canonical `Molecule` model, RDKit/ParmEd adapters, reader dispatch,
extension-based toolkit resolution, file writing, and the `FileInput`
utility), translated from the Python sources, together with theorems
settling the specification claims.

Conventions of the embedding:
* Coordinates and masses are carried as `Int` triples / `Int` values.
  None of the modelled code paths performs arithmetic on them — they are
  copied verbatim between the canonical model and the toolkit objects —
  so the carrier type is irrelevant to every claim; an exact carrier
  keeps all equalities decidable.
* Python exceptions become `Option`/`Except` results; an implicit
  `return None` (falling off the end of a function) is modelled by a
  dedicated constructor, distinct from raising.
* Toolkit-native objects (RDKit `Chem.Mol`, ParmEd `Structure`) are
  modelled as records of exactly the fields the adapters touch; the
  toolkit's internal parsing/serialization stays opaque, as in the spec.
-/

set_option autoImplicit false

namespace MMElemental

/-! ## Canonical Molecule model (models/molecule/mm_molecule.py)

Only the fields the adapter code paths read or write are carried:
`symbols`, `geometry`, `names`, `residues`, `connectivity`, `masses`. -/

/-- One XYZ coordinate triple. -/
abbrev Coord := Int × Int × Int

/-- The canonical `Molecule` (mm_molecule.py), restricted to the fields
the conversion components touch.  `residues`, `names`, `masses` are
optional exactly as in the pydantic model; `connectivity` is a list of
`(atom_i, atom_j, bond_order)` triples. -/
structure Molecule where
  symbols : List String
  geometry : List Coord
  names : Option (List String) := none
  residues : Option (List (String × Int)) := none
  connectivity : List (Nat × Nat × Nat) := []
  masses : Option (List Int) := none
  deriving Repr, DecidableEq

/-! ## RDKit toolkit objects (models/molecule/rdkit_molecule.py)

`Bond.orders = list(Chem.BondType.values.values())`: the RDKit bond-type
enum, in value order (0 = UNSPECIFIED, 1 = SINGLE, 2 = DOUBLE, …, 21).
We model a bond type by its position in that enumeration. -/

/-- An RDKit `Chem.BondType` value, identified by its position in
`Chem.BondType.values` (0 = UNSPECIFIED, 1 = SINGLE, 2 = DOUBLE, …). -/
structure RDBondType where
  val : Nat
  deriving Repr, DecidableEq

/-- `Bond.orders` from rdkit_molecule.py: the list of the 22 RDKit bond
types in enumeration order. -/
def Bond_orders : List RDBondType := (List.range 22).map RDBondType.mk

/-- PDB monomer info attached to an RDKit atom:
(residue name, atom name, residue number), as set by
`Chem.AtomPDBResidueInfo` / read by `GetPDBResidueInfo`. -/
structure MonomerInfo where
  resName : String
  atomName : String
  resNum : Int
  deriving Repr, DecidableEq

/-- An RDKit atom, restricted to the fields the adapter touches:
`GetSymbol()` and the optional PDB monomer info. -/
structure RDAtom where
  symbol : String
  monomer : Option MonomerInfo
  deriving Repr, DecidableEq

/-- An RDKit bond: begin/end atom indices and the bond type. -/
structure RDBond where
  beginIdx : Nat
  endIdx : Nat
  btype : RDBondType
  deriving Repr, DecidableEq

/-- An RDKit `Chem.Mol`, restricted to the fields the adapter touches:
atoms, bonds, and the list of conformers (each a coordinate table). -/
structure RDMol where
  atoms : List RDAtom
  bonds : List RDBond
  conformers : List (List Coord)
  deriving Repr, DecidableEq

/-! ## MoleculeToRDKit.execute (components/trans/rdkit_component.py, from_canonical)

The source indexes `mmol.residues[index]` and `mmol.names[index]` for
each atom index: if either field is `None` this raises `TypeError`, and
if either list is shorter than `symbols` it raises `IndexError`; both
become `none` here.  Atom names are padded to width 4 for PDB writing. -/

/-- Name padding from MoleculeToRDKit.execute: RDKit wants atom names of
length exactly 4 when writing PDB files. -/
def padName (name : String) : String :=
  if name.length ≠ 4 then
    if name.length = 1 then " " ++ name ++ "  "
    else if name.length = 2 then " " ++ name ++ " "
    else if name.length = 3 then " " ++ name
    else name
  else name

/-- The per-atom loop of MoleculeToRDKit.execute: for each symbol, look
up the residue pair and atom name at the same index and build the RDKit
atom with its monomer info.  Fails (as the Python would with
`IndexError`) when `residues` or `names` is shorter than `symbols`. -/
def buildRDAtoms : List String → List (String × Int) → List String → Option (List RDAtom)
  | [], _, _ => some []
  | symb :: symbs, (resname, resnum) :: res, name :: names =>
      (buildRDAtoms symbs res names).map
        (fun rest => { symbol := symb, monomer := some ⟨resname, padName name, resnum⟩ } :: rest)
  | _ :: _, _, _ => none

/-- The bond loop of MoleculeToRDKit.execute:
`erdkmol.AddBond(i, j, Bond.orders[int(btype)])`.  Indexing
`Bond.orders` out of range raises `IndexError`, hence `Option`. -/
def buildRDBonds : List (Nat × Nat × Nat) → Option (List RDBond)
  | [] => some []
  | (i, j, btype) :: rest => do
      let bt ← Bond_orders.get? btype
      let bs ← buildRDBonds rest
      some ({ beginIdx := i, endIdx := j, btype := bt } :: bs)

/-- MoleculeToRDKit.execute (the `from_canonical` direction): builds the
RDKit atoms (with residue info), the bonds, and attaches one conformer
holding `geometry`.  Fails when `residues` or `names` is absent
(`TypeError` on `None[index]` in the source) or too short. -/
def moleculeToRDKit (m : Molecule) : Option RDMol := do
  let res ← m.residues
  let names ← m.names
  let atoms ← buildRDAtoms m.symbols res names
  let bonds ← buildRDBonds m.connectivity
  some { atoms := atoms, bonds := bonds, conformers := [m.geometry] }

/-! ## RDKitToMolecule.execute (components/trans/rdkit_component.py, to_canonical) -/

/-- The `try` block extracting residues and names: it succeeds only when
every atom carries PDB monomer info (`GetPDBResidueInfo()` returning
`None` raises inside the comprehension, caught by the bare `except`,
which sets both fields to `None`). -/
def tryResidues (atoms : List RDAtom) :
    Option (List (String × Int)) × Option (List String) :=
  match atoms.mapM (fun a => a.monomer) with
  | some infos =>
      (some (infos.map (fun i => (i.resName, i.resNum))),
       some (infos.map (fun i => i.atomName)))
  | none => (none, none)

/-- The bond loop of RDKitToMolecule.execute.  The source computes
`bondOrder = Bond.orders.index(bond.GetBondType())` and then appends
`(begin, end, 1)` — the constant `1` stands in for `bondOrder`, a hack
the source keeps because qcelemental rejects bond orders above 5. -/
def rdBondTriple (b : RDBond) : Nat × Nat × Nat :=
  let _bondOrder := Bond_orders.indexOf b.btype
  (b.beginIdx, b.endIdx, 1)

/-- RDKitToMolecule.execute (the `to_canonical` direction), applied to an
already-built RDKit molecule: extracts symbols, best-effort
residues/names, the connectivity triples, and the coordinates of
conformer 0 (`GetConformer(0)` raises when there is no conformer). -/
def rdkitToMolecule (rd : RDMol) : Option Molecule := do
  let geo ← rd.conformers.get? 0
  let (residues, names) := tryResidues rd.atoms
  some { symbols := rd.atoms.map (fun a => a.symbol),
         geometry := geo,
         residues := residues,
         names := names,
         connectivity := rd.bonds.map rdBondTriple,
         masses := none }

/-! ## Extension maps and toolkit resolution
(components/io/molreader_component.py, TkMolReaderComponent) -/

/-- Association-list lookup, modelling Python `dict.get`. -/
def lookupExt (m : List (String × String)) (ext : String) : Option String :=
  match m.find? (fun p => p.1 = ext) with
  | some p => some p.2
  | none => none

/-- `TkMolReaderComponent._extension_maps`: per toolkit, the mapping from
recognized file extension to internal format tag, in the source's
(insertion-ordered) toolkit order: qcelemental, rdkit, parmed. -/
def extension_maps : List (String × List (String × String)) :=
  [("qcelemental",
     [(".npy", "numpy"), (".json", "json"), (".xyz", "xyz"),
      (".psimol", "psi4"), (".psi4", "psi4"), (".msgpack", "msgpack")]),
   ("rdkit",
     [(".pdb", "pdb"), (".mol", "mol"), (".mol2", "mol2"),
      (".tpl", "tpl"), (".sdf", "sdf"), (".smiles", "smiles")]),
   ("parmed",
     [(".gro", "gro"), (".psf", "psf"), (".pdb", "pdb"), (".top", "top")])]

/-- The topology-file part of the selection condition: when a topology
file is supplied, the toolkit's map must also claim its extension. -/
def topClaim (m : List (String × String)) : Option String → Bool
  | some te => (lookupExt m te).isSome
  | none => true

/-- The selection condition of the resolver loop for one toolkit entry
`(tk, map)`: the toolkit claims `ext`; when a topology file is present
it also claims the topology extension; and the toolkit's module is
importable (`importlib.util.find_spec`). -/
def tkGood (avail : String → Bool) (ext : String) (topExt : Option String)
    (e : String × List (String × String)) : Prop :=
  (lookupExt e.2 ext).isSome = true ∧ topClaim e.2 topExt = true ∧ avail e.1 = true

instance (avail : String → Bool) (ext : String) (topExt : Option String)
    (e : String × List (String × String)) :
    Decidable (tkGood avail ext topExt e) :=
  inferInstanceAs (Decidable
    ((lookupExt e.2 ext).isSome = true ∧ topClaim e.2 topExt = true ∧ avail e.1 = true))

/-- The `for toolkit in _extension_maps` loop of
TkMolReaderComponent.execute: iterate the toolkits in order; `break`
(returning the current toolkit and the format tag found for `ext`) as
soon as one claims `ext`, claims the topology extension when a topology
file was supplied, and is importable; otherwise fall through with
`toolkit = None`. -/
def resolveLoop (avail : String → Bool) (ext : String) (topExt : Option String) :
    List (String × List (String × String)) → Option (String × String)
  | [] => none
  | (tk, m) :: rest =>
      match lookupExt m ext with
      | some dtype =>
          match topExt with
          | some te =>
              if (lookupExt m te).isSome ∧ avail tk then some (tk, dtype)
              else resolveLoop avail ext topExt rest
          | none =>
              if avail tk then some (tk, dtype)
              else resolveLoop avail ext topExt rest
      | none => resolveLoop avail ext topExt rest

/-- The file branch of TkMolReaderComponent.execute: run the resolver
loop over `_extension_maps`; when no toolkit is found, raise
`ValueError` naming the extension (the `UnsupportedFormat` error kind). -/
def tkResolveFile (avail : String → Bool) (ext : String) (topExt : Option String) :
    Except String (String × String) :=
  match resolveLoop avail ext topExt extension_maps with
  | some (tk, dtype) => .ok (tk, dtype)
  | none => .error ("Data type not understood for file ext " ++ ext ++ ".")

/-! ## MolReaderComponent.execute — source determination and dispatch
(components/io/molreader_component.py) -/

/-- The three possible sources of a `MolInput` / `ReaderInput`, each
reduced to the data the dispatch code inspects: a `data` object carries
its `dtype` tag, a `code` carries its `code_type`, a `file` carries its
extension and optional topology extension. -/
structure MolInput where
  data : Option String := none
  code : Option String := none
  file : Option (String × Option String) := none
  deriving Repr, DecidableEq

/-- Where MolReaderComponent.execute sends an input (which adapter is
invoked, or which error is raised), following the
`if data / elif code / elif file / else` chain of the source. -/
inductive ReadDispatch where
  | qcelementalData
  | rdkitData
  | parmedData
  | unsupportedData (dtype : String)
  | rdkitCode
  | fileFallback
  | noSourceError
  deriving Repr, DecidableEq

/-- The source-determination chain of MolReaderComponent.execute:
`if inputs.data: … elif inputs.code: … elif inputs.file: … else: raise`.
No check that at most one source is populated is performed. -/
def molReaderDispatch (inp : MolInput) : ReadDispatch :=
  match inp.data with
  | some dtype =>
      if dtype = "qcelemental" then .qcelementalData
      else if dtype = "rdkit" then .rdkitData
      else if dtype = "parmed" then .parmedData
      else .unsupportedData dtype
  | none =>
      match inp.code with
      | some _ => .rdkitCode
      | none =>
          match inp.file with
          | some _ => .fileFallback
          | none => .noSourceError

/-- A Python exception as seen by the fallback logic: only whether it is
an `ImportError` matters (the second `except` clause is typed). -/
structure PyExn where
  isImportError : Bool
  msg : String
  deriving Repr, DecidableEq

/-- Outcome of the file branch of MolReaderComponent.execute: a
molecule, a propagated exception, or Python's implicit `return None`
after the `print` in the final `except ImportError` handler. -/
inductive FileReadOutcome where
  | ok (m : Molecule)
  | raised (e : PyExn)
  | noneReturned
  deriving Repr, DecidableEq

/-- The file branch of MolReaderComponent.execute:
`try: RDKitToMolecule.compute … except: try: ParmedToMolecule.compute …
except ImportError: print(…)` — the first `except` is bare (catches
everything), the second catches only `ImportError` and then falls off
the end of the function, returning `None`. -/
def molReaderFileBranch (rdkitTry parmedTry : Except PyExn Molecule) :
    FileReadOutcome :=
  match rdkitTry with
  | .ok m => .ok m
  | .error _ =>
      match parmedTry with
      | .ok m => .ok m
      | .error e =>
          if e.isImportError then .noneReturned else .raised e

/-! ## RDKitMolecule.build_mol — SDF branch
(models/molecule/rdkit_molecule.py) -/

/-- The SDF branch of RDKitMolecule.build_mol:
`rdkmols = Chem.SDMolSupplier(filename, …)`; if the container holds more
than one record, raise `ValueError` (the `AmbiguousRecord` error kind);
otherwise take `rdkmols[0]` (an `IndexError` when the container is
empty). -/
def buildMolSdf (records : List RDMol) : Except String RDMol :=
  if records.length > 1 then
    .error "SDF file should contain a single molecule"
  else
    match records.get? 0 with
    | some m => .ok m
    | none => .error "IndexError: no record in SDF container"

/-! ## ParmEd adapter (components/parmed_component.py) -/

/-- A ParmEd `Residue` as the adapter touches it: its `name`, its
0-based position `idx` in `structure.residues`, and the residue
`number` it was registered under. -/
structure PmdResidue where
  name : String
  idx : Nat
  number : Int
  deriving Repr, DecidableEq

/-- A ParmEd `Atom` restricted to the fields the adapter touches. -/
structure PmdAtom where
  element_name : String
  name : String
  mass : Int
  residue : PmdResidue
  deriving Repr, DecidableEq

/-- A ParmEd `Structure` restricted to the fields the adapter touches:
atoms (each knowing its residue), bonds as
`(atom1.idx, atom2.idx, order)` triples, and the coordinate table. -/
structure PmdStructure where
  atoms : List PmdAtom
  bonds : List (Nat × Nat × Nat)
  coordinates : List Coord
  deriving Repr, DecidableEq

/-- ParmedToMolecule.execute (the `to_canonical` direction), applied to
an already-built ParmEd structure: symbols from `element_name`, names,
best-effort masses, residues as `(atom.residue.name, atom.residue.idx)`
— note the source reads the 0-based `idx`, not the residue `number` —
and bonds as `(atom1.idx, atom2.idx, order)`. -/
def parmedToMolecule (p : PmdStructure) : Molecule :=
  { symbols := p.atoms.map (fun a => a.element_name),
    geometry := p.coordinates,
    names := some (p.atoms.map (fun a => a.name)),
    residues := some (p.atoms.map (fun a => (a.residue.name, (a.residue.idx : Int)))),
    connectivity := p.bonds,
    masses := some (p.atoms.map (fun a => a.mass)) }

/-- The residue-registration step of MoleculeToParmed.execute (the
`from_canonical` direction): for each atom the source calls
`pmol.add_atom(atom, resname, resnum + 1, …)` — the residue number
handed to ParmEd is the canonical residue number plus one. -/
def parmedResidueNumber (resnum : Int) : Int := resnum + 1

/-- The per-atom accesses of MoleculeToParmed.execute: `mmol.names[index]`,
`mmol.masses[index]`, `mmol.residues[index]` — a `TypeError` when any of
these optional fields is `None`, an `IndexError` when too short; both
become `none`.  Returns the `(name, mass, resname, parmedResnum)` data
registered per atom. -/
def buildPmdAtoms : List String → List String → List Int → List (String × Int) →
    Option (List (String × Int × String × Int))
  | [], _, _, _ => some []
  | _symb :: symbs, name :: names, mass :: masses, (resname, resnum) :: res =>
      (buildPmdAtoms symbs names masses res).map
        (fun rest => (name, mass, resname, parmedResidueNumber resnum) :: rest)
  | _ :: _, _, _, _ => none

/-- MoleculeToParmed.execute, reduced to the data it registers: fails
(`TypeError`) when `names`, `masses` or `residues` is absent or too
short. -/
def moleculeToParmed (m : Molecule) :
    Option (List (String × Int × String × Int)) := do
  let names ← m.names
  let masses ← m.masses
  let res ← m.residues
  buildPmdAtoms m.symbols names masses res

/-! ## Molecule.to_file (models/molecule/mm_molecule.py)

`to_file` resolves the toolkit from the filename extension by scanning
the extension maps in toolkit order and taking the first map containing
the extension, then dispatches on the toolkit name.  The RDKit branch
first runs `rdkmol = MoleculeToRDKit.compute(self)` — the
`from_canonical` conversion of the molecule being written — and only
then checks its writable-tag set (`pdb`, `sdf`, `smiles`): any other
tag — including tags the RDKit reader claims, such as `mol`, `mol2`,
`tpl` — raises `NotImplementedError` (the `UnsupportedWrite` error
kind).  Because the conversion precedes the tag check, a molecule on
which the conversion fails (absent `residues`/`names`, C1) never
reaches the tag check: `to_file` fails with the conversion's
`TypeError` instead.  The ParmEd branch likewise converts
(`MoleculeToParmed.compute(self)`) before `pmol.mol.save(filename)`. -/

/-- The extension loop of Molecule.to_file: first toolkit whose map
contains the extension wins, together with its format tag. -/
def resolveWriteExt : List (String × List (String × String)) → String →
    Option (String × String)
  | [], _ => none
  | (tk, m) :: rest, ext =>
      match lookupExt m ext with
      | some dtype => some (tk, dtype)
      | none => resolveWriteExt rest ext

/-- Outcome of Molecule.to_file's dispatch.  `rdkitWrite` carries the
converted native molecule handed to the writer (`writer.write(rdkmol.mol)`);
`conversionError` is the `TypeError` raised by the adapter's
`from_canonical` conversion before any writer or tag check is reached. -/
inductive WriteOutcome where
  | qcelemWrite (dtype : String)
  | rdkitWrite (rd : RDMol) (dtype : String)
  | conversionError
  | unsupportedWrite (msg : String)
  | parmedSave
  | unknownToolkit (msg : String)
  | nameError
  deriving Repr, DecidableEq

/-- Molecule.to_file with no explicit dtype: resolve the toolkit from
the extension, then dispatch.  When the extension matches no map, the
Python `toolkit` variable is never bound and the comparison raises
`NameError`.  The source compares against the literal `'qcelem'`, which
never equals the map key `'qcelemental'` of the reader component under
`components/io/`; the qcelemental case is tangential to every claim
settled here.  In the RDKit branch `MoleculeToRDKit.compute(self)` runs
first; only if it succeeds is the tag checked against the writable set
(`pdb`, `sdf`, `smiles`), every other tag raising
`NotImplementedError`.  The ParmEd branch likewise converts before
saving. -/
def toFileDispatch (m : Molecule) (ext : String) : WriteOutcome :=
  match resolveWriteExt extension_maps ext with
  | none => .nameError
  | some (tk, dtype) =>
      if tk = "qcelem" then .qcelemWrite dtype
      else if tk = "rdkit" then
        match moleculeToRDKit m with
        | none => .conversionError
        | some rd =>
            if dtype = "pdb" then .rdkitWrite rd dtype
            else if dtype = "sdf" then .rdkitWrite rd dtype
            else if dtype = "smiles" then .rdkitWrite rd dtype
            else .unsupportedWrite ("File format " ++ dtype ++ " not supported by rdkit.")
      else if tk = "parmed" then
        match moleculeToParmed m with
        | none => .conversionError
        | some _ => .parmedSave
      else .unknownToolkit ("Data type not yet supported: " ++ dtype)

/-! ## FileInput (models/util/input.py) -/

/-- A filesystem, as the characteristic function of the set of existing
file paths. -/
def FileSys := String → Bool

/-- FileInput.remove: `os.remove(self.abs_path)` guarded by
`os.path.isfile`. -/
def FileInput_remove (fs : FileSys) (p : String) : FileSys :=
  if fs p then (fun q => if q = p then false else fs q) else fs

/-- Result of FileInput.__exit__: either the (possibly changed)
filesystem on normal exit, or the fresh bare `Exception` the method
raises when the block exited with a traceback. -/
inductive ExitResult where
  | ok (fs : FileSys)
  | bareException

/-- FileInput.__exit__: `if not tb: self.remove() else: raise Exception`.
On exception-free exit the input file is deleted; on exceptional exit a
new bare `Exception` is raised, discarding the original exception. -/
def FileInput_exit (fs : FileSys) (p : String) (tb : Option String) : ExitResult :=
  match tb with
  | none => .ok (FileInput_remove fs p)
  | some _ => .bareException

/-- One call of FileInput.read, given the current text of the file the
method is invoked on and the current shared `_content` list (a
class-level mutable list shared by every `FileInput` instance in the
process): append the text, return element 0 of the list.  After the
append the list is non-empty, so the indexing cannot fail; `headI` is
that element. -/
def FileInput_read (text : String) (content : List String) : String × List String :=
  let content2 := content ++ [text]
  (content2.headI, content2)

/-- A sequence of FileInput.read calls threading the shared class-level
`_content` state: `texts` lists, call by call, the current content of
the file each call is invoked on (the calls may come from the same or
from different `FileInput` instances — the state is shared either way).
Returns the values the calls return. -/
def runReads : List String → List String → List String
  | [], _ => []
  | t :: ts, content =>
      let r := FileInput_read t content
      r.1 :: runReads ts r.2

/-! ## Concrete instances used by witnesses and counterexamples -/

/-- A water molecule with residues and names present, all bond orders 1. -/
def mWater : Molecule :=
  { symbols := ["O", "H", "H"],
    geometry := [(0, 0, 0), (1, 0, 0), (0, 1, 0)],
    names := some ["O", "H1", "H2"],
    residues := some [("HOH", 1), ("HOH", 1), ("HOH", 1)],
    connectivity := [(0, 1, 1), (0, 2, 1)],
    masses := none }

/-- A molecule with `residues`, `names` and `masses` all absent. -/
def mNoResidues : Molecule :=
  { symbols := ["O", "H", "H"],
    geometry := [(0, 0, 0), (1, 0, 0), (0, 1, 0)],
    names := none,
    residues := none,
    connectivity := [(0, 1, 1), (0, 2, 1)],
    masses := none }

/-- A native RDKit molecule holding one DOUBLE bond (bond type 2). -/
def rdDoubleBond : RDMol :=
  { atoms := [⟨"C", none⟩, ⟨"O", none⟩],
    bonds := [⟨0, 1, ⟨2⟩⟩],
    conformers := [[(0, 0, 0), (1, 0, 0)]] }

/-- A ParmEd structure with a single atom belonging to the first residue:
the residue sits at index 0 of `structure.residues` and carries residue
number 1. -/
def pmdAla : PmdStructure :=
  { atoms := [{ element_name := "C", name := "CA", mass := 12,
                residue := { name := "ALA", idx := 0, number := 1 } }],
    bonds := [],
    coordinates := [(0, 0, 0)] }

/-! ## Resolver lemmas -/

/-- The resolver loop is `find?` over the toolkit list with the
three-part selection condition, returning the found toolkit paired with
the format tag its map assigns to the extension. -/
theorem resolveLoop_eq_find (avail : String → Bool) (ext : String) (topExt : Option String)
    (l : List (String × List (String × String))) :
    resolveLoop avail ext topExt l =
      (l.find? (fun e => decide (tkGood avail ext topExt e))).bind
        (fun e => (lookupExt e.2 ext).map (fun dt => (e.1, dt))) := by
  induction l with
  | nil => rfl
  | cons e rest ih =>
    obtain ⟨tk, m⟩ := e
    rw [List.find?_cons]
    cases hx : lookupExt m ext with
    | none =>
      have hg : decide (tkGood avail ext topExt (tk, m)) = false := by
        simp [tkGood, hx]
      rw [hg]
      simpa only [resolveLoop, hx] using ih
    | some dtype =>
      cases topExt with
      | none =>
        by_cases ha : avail tk = true
        · have hg : decide (tkGood avail ext none (tk, m)) = true := by
            simp [tkGood, topClaim, hx, ha]
          rw [hg]
          simp only [resolveLoop, hx, ha, if_pos]
          simp [hx]
        · have hg : decide (tkGood avail ext none (tk, m)) = false := by
            simp [tkGood, topClaim, hx, ha]
          rw [hg]
          simp only [resolveLoop, hx]
          rw [if_neg ha]
          exact ih
      | some te =>
        by_cases hc : (lookupExt m te).isSome ∧ avail tk
        · have hg : decide (tkGood avail ext (some te) (tk, m)) = true := by
            simp [tkGood, topClaim, hx]
            exact ⟨hc.1, hc.2⟩
          rw [hg]
          simp only [resolveLoop, hx]
          rw [if_pos hc]
          simp [hx]
        · have hg : decide (tkGood avail ext (some te) (tk, m)) = false := by
            simp only [tkGood, topClaim, hx, Option.isSome_some, true_and,
              decide_eq_false_iff_not]
            intro hcon
            exact hc ⟨hcon.1, hcon.2⟩
          rw [hg]
          simp only [resolveLoop, hx]
          rw [if_neg hc]
          exact ih

/-- The resolver loop returns `none` exactly when no toolkit entry
satisfies the selection condition. -/
theorem resolveLoop_none_iff (avail : String → Bool) (ext : String) (topExt : Option String)
    (l : List (String × List (String × String))) :
    resolveLoop avail ext topExt l = none ↔ ∀ e ∈ l, ¬ tkGood avail ext topExt e := by
  rw [resolveLoop_eq_find]
  cases hf : l.find? (fun e => decide (tkGood avail ext topExt e)) with
  | none =>
    rw [List.find?_eq_none] at hf
    simp only [Option.none_bind, true_iff]
    intro e he hg
    exact absurd (decide_eq_true hg) (by simpa using hf e he)
  | some e =>
    have hp := List.find?_some hf
    have hg : tkGood avail ext topExt e := of_decide_eq_true hp
    have hmem : e ∈ l := List.mem_of_find?_eq_some hf
    obtain ⟨dt, hdt⟩ := Option.isSome_iff_exists.mp hg.1
    simp only [Option.some_bind, hdt, Option.map_some]
    constructor
    · intro h; cases h
    · intro h; exact absurd hg (h e hmem)

/-- When the resolver loop selects a toolkit, that toolkit is the first
entry (in the fixed toolkit order) satisfying the selection condition,
and the returned tag is the one its map assigns to the extension. -/
theorem resolveLoop_some_sound (avail : String → Bool) (ext : String) (topExt : Option String)
    (l : List (String × List (String × String))) (tk dt : String) :
    resolveLoop avail ext topExt l = some (tk, dt) →
    ∃ m, l.find? (fun e => decide (tkGood avail ext topExt e)) = some (tk, m) ∧
      lookupExt m ext = some dt ∧ tkGood avail ext topExt (tk, m) := by
  rw [resolveLoop_eq_find]
  cases hf : l.find? (fun e => decide (tkGood avail ext topExt e)) with
  | none => intro h; cases h
  | some e =>
    obtain ⟨tk0, m⟩ := e
    have hp := List.find?_some hf
    have hg : tkGood avail ext topExt (tk0, m) := of_decide_eq_true hp
    obtain ⟨dt0, hdt⟩ := Option.isSome_iff_exists.mp hg.1
    simp only [Option.some_bind, hdt, Option.map_some]
    intro h
    simp only [Option.map_some', Option.some.injEq, Prod.mk.injEq] at h
    obtain ⟨h1, h2⟩ := h
    subst h1
    subst h2
    exact ⟨m, rfl, hdt, hg⟩

/-! ## Claim C2 — resolution by extension -/

/-- C2: Resolution by extension iterates the toolkits in the fixed
priority order (qcelemental, rdkit, parmed) and selects a toolkit iff it
is the first one that claims the extension, is importable, and — when a
topology file is supplied — also claims the topology extension; when no
toolkit satisfies all three conditions, resolution fails with the
`UnsupportedFormat` error naming the extension instead of returning a
toolkit.  Stated in three parts: (sound) a selected toolkit is the first
entry satisfying the condition and the tag is its map's entry for the
extension; (complete) if some toolkit satisfies the condition, one is
selected; (failure) if none does, the result is the `ValueError` whose
message names the extension. -/
theorem resolve_by_extension_spec (avail : String → Bool) (ext : String)
    (topExt : Option String) :
    (∀ tk dt, tkResolveFile avail ext topExt = .ok (tk, dt) →
      ∃ m, extension_maps.find? (fun e => decide (tkGood avail ext topExt e)) = some (tk, m) ∧
        lookupExt m ext = some dt ∧ tkGood avail ext topExt (tk, m)) ∧
    ((∃ e ∈ extension_maps, tkGood avail ext topExt e) →
      ∃ tk dt, tkResolveFile avail ext topExt = .ok (tk, dt)) ∧
    ((∀ e ∈ extension_maps, ¬ tkGood avail ext topExt e) →
      tkResolveFile avail ext topExt =
        .error ("Data type not understood for file ext " ++ ext ++ ".")) := by
  refine ⟨?_, ?_, ?_⟩
  · intro tk dt h
    unfold tkResolveFile at h
    cases hr : resolveLoop avail ext topExt extension_maps with
    | none => rw [hr] at h; cases h
    | some p =>
      obtain ⟨tk0, dt0⟩ := p
      rw [hr] at h
      have h2 : (tk0, dt0) = (tk, dt) := by injection h
      rw [Prod.mk.injEq] at h2
      obtain ⟨h1, h3⟩ := h2
      subst h1
      subst h3
      exact resolveLoop_some_sound avail ext topExt extension_maps tk0 dt0 hr
  · rintro ⟨e, he, hg⟩
    cases hr : resolveLoop avail ext topExt extension_maps with
    | none =>
      exact absurd hg ((resolveLoop_none_iff avail ext topExt extension_maps).mp hr e he)
    | some p =>
      exact ⟨p.1, p.2, by unfold tkResolveFile; rw [hr]⟩
  · intro h
    have hr : resolveLoop avail ext topExt extension_maps = none :=
      (resolveLoop_none_iff avail ext topExt extension_maps).mpr h
    unfold tkResolveFile
    rw [hr]

/-- Witness for C2, failure part: the extension `.unknownext` is claimed
by no toolkit, so even with every toolkit importable resolution fails
with the error naming the extension. -/
theorem resolve_by_extension_spec_witness :
    tkResolveFile (fun _ => true) ".unknownext" none =
      .error ("Data type not understood for file ext " ++ ".unknownext" ++ ".") :=
  (resolve_by_extension_spec (fun _ => true) ".unknownext" none).2.2 (by decide)

/-! ## Claim C1 — adapter round trip -/

/-- When `residues` and `names` cover all atoms, the atom-construction
loop of MoleculeToRDKit succeeds and the built atoms carry the symbols
in order. -/
theorem buildRDAtoms_spec (symbs : List String) (rs : List (String × Int)) (ns : List String)
    (hr : symbs.length ≤ rs.length) (hn : symbs.length ≤ ns.length) :
    ∃ atoms, buildRDAtoms symbs rs ns = some atoms ∧
      atoms.map RDAtom.symbol = symbs := by
  induction symbs generalizing rs ns with
  | nil => exact ⟨[], rfl, rfl⟩
  | cons s ss ih =>
    cases rs with
    | nil => simp at hr
    | cons r rs2 =>
      cases ns with
      | nil => simp at hn
      | cons n ns2 =>
        obtain ⟨atoms, ha, hs⟩ :=
          ih rs2 ns2 (by simpa using hr) (by simpa using hn)
        obtain ⟨rname, rnum⟩ := r
        exact ⟨{ symbol := s, monomer := some ⟨rname, padName n, rnum⟩ } :: atoms,
               by simp [buildRDAtoms, ha],
               by simp [hs]⟩

/-- When every bond order is 1, the bond-construction loop of
MoleculeToRDKit succeeds and converting the built bonds back through
RDKitToMolecule's bond loop returns the original triples. -/
theorem buildRDBonds_spec (conn : List (Nat × Nat × Nat))
    (hb : ∀ t ∈ conn, t.2.2 = 1) :
    ∃ bonds, buildRDBonds conn = some bonds ∧ bonds.map rdBondTriple = conn := by
  induction conn with
  | nil => exact ⟨[], rfl, rfl⟩
  | cons t rest ih =>
    obtain ⟨i, j, o⟩ := t
    have ho : o = 1 := hb (i, j, o) (List.mem_cons_self ..)
    subst ho
    obtain ⟨bonds, h1, h2⟩ := ih (fun t ht => hb t (List.mem_cons_of_mem _ ht))
    have hget : Bond_orders[1]? = some (⟨1⟩ : RDBondType) := rfl
    exact ⟨⟨i, j, ⟨1⟩⟩ :: bonds,
           by simp [buildRDBonds, hget, h1],
           by simp [h2, rdBondTriple]⟩

/-- C1 (amended): for the RDKit adapter, the round trip
`to_canonical (from_canonical m)` preserves symbols, geometry and
connectivity (even as ordered lists) **provided** `residues` and `names`
are present and cover all atoms and every bond order equals 1.  The
original claim's "residues/masses present or absent" and its
order-preservation part fail: see the counterexample, and C6 for bond
orders. -/
theorem rdkit_roundtrip_amended (m : Molecule) (rs : List (String × Int)) (ns : List String)
    (hres : m.residues = some rs) (hnames : m.names = some ns)
    (hrl : m.symbols.length ≤ rs.length) (hnl : m.symbols.length ≤ ns.length)
    (hb : ∀ t ∈ m.connectivity, t.2.2 = 1) :
    ∃ rd m2, moleculeToRDKit m = some rd ∧ rdkitToMolecule rd = some m2 ∧
      m2.symbols = m.symbols ∧ m2.geometry = m.geometry ∧
      m2.connectivity = m.connectivity := by
  obtain ⟨atoms, ha, hs⟩ := buildRDAtoms_spec m.symbols rs ns hrl hnl
  obtain ⟨bonds, hbs, hbt⟩ := buildRDBonds_spec m.connectivity hb
  refine ⟨⟨atoms, bonds, [m.geometry]⟩,
    { symbols := atoms.map RDAtom.symbol,
      geometry := m.geometry,
      residues := (tryResidues atoms).1,
      names := (tryResidues atoms).2,
      connectivity := bonds.map rdBondTriple,
      masses := none }, ?_, ?_, hs, rfl, hbt⟩
  · simp [moleculeToRDKit, hres, hnames, ha, hbs]
  · rfl

/-- Counterexample to C1 as stated: a molecule whose `residues` (and
`masses`) fields are absent cannot complete the round trip at all — the
RDKit `from_canonical` conversion fails on `mmol.residues[index]`
(`TypeError` on `None`), so no toolkit object, let alone an equal
molecule, is produced. -/
theorem rdkit_roundtrip_counterexample :
    mNoResidues.residues = none ∧ mNoResidues.masses = none ∧
    moleculeToRDKit mNoResidues = none := by decide

/-- Witness for C1 (amended), at a concrete water molecule with
residues and names present and all bond orders 1. -/
theorem rdkit_roundtrip_amended_witness :
    ∃ rd m2, moleculeToRDKit mWater = some rd ∧ rdkitToMolecule rd = some m2 ∧
      m2.symbols = mWater.symbols ∧ m2.geometry = mWater.geometry ∧
      m2.connectivity = mWater.connectivity :=
  rdkit_roundtrip_amended mWater [("HOH", 1), ("HOH", 1), ("HOH", 1)] ["O", "H1", "H2"]
    rfl rfl (by decide) (by decide) (by decide)

/-! ## Claim C3 — source determination -/

/-- Counterexample to C3 as stated: with both `code` and `file`
populated, MolReaderComponent.execute dispatches the RDKit adapter on
the code — it does not fail with `InvalidInput` before dispatch, and
indeed raises no error at all. -/
theorem invalid_input_counterexample :
    molReaderDispatch { data := none, code := some "Smiles", file := some (".pdb", none) } =
      .rdkitCode ∧
    ReadDispatch.rdkitCode ≠ ReadDispatch.noSourceError := by decide

/-- C3 (amended): the read pipeline raises an error only when none of
the three sources is populated; when more than one is populated it
silently dispatches on the highest-priority populated source (`data`,
then `code`, then `file`) — in particular, with both `code` and `file`
set, the RDKit adapter is invoked on the code.  No exactly-one check is
performed. -/
theorem molReader_source_determination (inp : MolInput) :
    (molReaderDispatch inp = .noSourceError ↔
      inp.data = none ∧ inp.code = none ∧ inp.file = none) ∧
    (inp.data = none → inp.code ≠ none → molReaderDispatch inp = .rdkitCode) := by
  constructor
  · constructor
    · intro h
      cases hd : inp.data with
      | some d =>
        exfalso
        simp only [molReaderDispatch, hd] at h
        split_ifs at h
      | none =>
        cases hc : inp.code with
        | some c =>
            exfalso
            simp only [molReaderDispatch, hd, hc] at h
            exact ReadDispatch.noConfusion h
        | none =>
          cases hf : inp.file with
          | some f =>
              exfalso
              simp only [molReaderDispatch, hd, hc, hf] at h
              exact ReadDispatch.noConfusion h
          | none => exact ⟨rfl, rfl, rfl⟩
    · rintro ⟨hd, hc, hf⟩
      rw [molReaderDispatch, hd, hc, hf]
  · intro hd hc
    cases hcc : inp.code with
    | none => exact absurd hcc hc
    | some c => rw [molReaderDispatch, hd, hcc]

/-- Witness for C3 (amended): with `code` and `file` both populated the
dispatch lands on the RDKit code adapter. -/
theorem molReader_source_determination_witness :
    molReaderDispatch { data := none, code := some "Smiles", file := some (".gro", none) } =
      .rdkitCode :=
  (molReader_source_determination
    { data := none, code := some "Smiles", file := some (".gro", none) }).2 rfl (by simp)

/-! ## Claim C4 — multi-record containers -/

/-- C4: the SDF branch of RDKitMolecule.build_mol fails with the
`AmbiguousRecord` error (`ValueError` in the source) whenever the
container holds more than one record; it never silently returns the
first record of a multi-record file. -/
theorem sdf_multi_record_ambiguous (records : List RDMol) (h : records.length > 1) :
    buildMolSdf records = .error "SDF file should contain a single molecule" := by
  simp [buildMolSdf, h]

/-- Witness for C4, at a concrete two-record container. -/
theorem sdf_multi_record_ambiguous_witness :
    buildMolSdf [⟨[], [], []⟩, ⟨[], [], []⟩] =
      .error "SDF file should contain a single molecule" :=
  sdf_multi_record_ambiguous [⟨[], [], []⟩, ⟨[], [], []⟩] (by decide)

/-! ## Claim C5 — no available toolkit -/

/-- Counterexample to C5 as stated: when neither RDKit nor ParmEd is
importable, the file branch of MolReaderComponent.execute does not
terminate with a typed `NoAvailableToolkit` failure — the inner `except
ImportError` handler prints and falls off the end of the function,
returning `None` (no error raised, no result). -/
theorem no_toolkit_counterexample :
    molReaderFileBranch (.error ⟨true, "No module named rdkit"⟩)
      (.error ⟨true, "No module named parmed"⟩) = .noneReturned := by decide

/-- C5 (amended): whenever the RDKit attempt fails (for any reason —
the first `except` is bare) and the ParmEd attempt fails with an
`ImportError`, the file branch swallows both errors and returns `None`:
no typed failure is surfaced. -/
theorem file_read_swallows_import_errors (e1 e2 : PyExn)
    (h : e2.isImportError = true) :
    molReaderFileBranch (.error e1) (.error e2) = .noneReturned := by
  simp [molReaderFileBranch, h]

/-- Witness for C5 (amended), at concrete import errors. -/
theorem file_read_swallows_import_errors_witness :
    molReaderFileBranch (.error ⟨true, "no rdkit"⟩) (.error ⟨true, "no parmed"⟩) =
      .noneReturned :=
  file_read_swallows_import_errors ⟨true, "no rdkit"⟩ ⟨true, "no parmed"⟩ rfl

/-! ## Claim C6 — bond orders on the to_canonical path -/

/-- C6 (code bug evaluated): converting a native RDKit molecule holding
a DOUBLE bond records bond order 1 in the canonical connectivity, even
though the source's own (immediately discarded) computation
`Bond.orders.index(bond.GetBondType())` yields 2 for that bond — the
constant 1 is substituted independently of the native order. -/
theorem rdkit_bond_order_constant :
    (rdkitToMolecule rdDoubleBond).map Molecule.connectivity = some [(0, 1, 1)] ∧
    Bond_orders.indexOf (RDBondType.mk 2) = 2 := by decide

/-! ## Claim C7 — residue numbering -/

/-- C7 (code bug evaluated): ParmedToMolecule records
`(atom.residue.name, atom.residue.idx)` — the 0-based list index of the
residue, not its residue number.  For a structure whose single atom
belongs to the first residue (ParmEd residue number 1), the canonical
`residues` entry is `("ALA", 0)`, violating the 1-based invariant
(`residue numbers ≥ 1`) stated in the model's own field documentation;
the reverse path independently shifts by one
(`pmol.add_atom(atom, resname, resnum + 1, …)`). -/
theorem parmed_residue_zero_based :
    pmdAla.atoms.map (fun a => a.residue.number) = [1] ∧
    (parmedToMolecule pmdAla).residues = some [("ALA", 0)] ∧
    parmedResidueNumber 0 = 1 := by decide

/-! ## Claim C8 — write capability is separate from read capability -/

/-- Counterexample to C8 as stated: `.mol2` resolves to the RDKit
toolkit, whose writer cannot emit that tag — yet writing `mNoResidues`
(residues/names absent) does not fail with `UnsupportedWrite`: the
RDKit branch of Molecule.to_file runs `MoleculeToRDKit.compute(self)`
*before* the writable-tag check, and the conversion fails there with a
`TypeError`, so the write fails with the conversion error instead.  The
claim's "for every Molecule" therefore does not hold. -/
theorem to_file_conversion_error_counterexample :
    resolveWriteExt extension_maps ".mol2" = some ("rdkit", "mol2") ∧
    toFileDispatch mNoResidues ".mol2" = .conversionError ∧
    WriteOutcome.conversionError ≠
      .unsupportedWrite ("File format " ++ "mol2" ++ " not supported by rdkit.") := by
  decide

/-- C8 (amended): for every Molecule whose RDKit `from_canonical`
conversion succeeds, writing to a format tag that resolves to the RDKit
toolkit outside its writable set (`pdb`, `sdf`, `smiles`) fails with
the `UnsupportedWrite` error (`NotImplementedError` naming the tag) —
even though resolution used the RDKit *reader* extension map, i.e. the
toolkit can read that tag.  When the conversion fails (residues or
names absent), `to_file` fails with that conversion `TypeError` before
the write-capability check is reached. -/
theorem to_file_unsupported_write (m : Molecule) (ext dt : String)
    (h0 : (moleculeToRDKit m).isSome = true)
    (h1 : resolveWriteExt extension_maps ext = some ("rdkit", dt))
    (h2 : dt ≠ "pdb") (h3 : dt ≠ "sdf") (h4 : dt ≠ "smiles") :
    toFileDispatch m ext =
      .unsupportedWrite ("File format " ++ dt ++ " not supported by rdkit.") := by
  obtain ⟨rd, hrd⟩ := Option.isSome_iff_exists.mp h0
  unfold toFileDispatch
  rw [h1]
  simp [hrd, h2, h3, h4]

/-- Witness for C8 (amended): `mWater` converts successfully, `.mol2`
is claimed by the RDKit reader map (so the toolkit can read it), yet
writing fails with `UnsupportedWrite`. -/
theorem to_file_unsupported_write_witness :
    toFileDispatch mWater ".mol2" =
      .unsupportedWrite ("File format " ++ "mol2" ++ " not supported by rdkit.") :=
  to_file_unsupported_write mWater ".mol2" "mol2"
    (by decide) (by decide) (by decide) (by decide) (by decide)

/-! ## Claim C9 — FileInput context-manager exit -/

/-- C9: exiting a `FileInput` context without an exception deletes the
underlying file (the path no longer exists afterwards, so a successful
with-block does not leave the input file unchanged when it existed);
exiting with an exception raises a new bare `Exception` in place of the
original. -/
theorem fileInput_exit_spec (fs : FileSys) (p : String) (e : String) :
    FileInput_exit fs p none = .ok (FileInput_remove fs p) ∧
    FileInput_remove fs p p = false ∧
    FileInput_exit fs p (some e) = .bareException := by
  refine ⟨rfl, ?_, rfl⟩
  unfold FileInput_remove
  by_cases h : fs p = true
  · simp [h]
  · simp only [if_neg h]
    exact Bool.not_eq_true (fs p) ▸ h

/-! ## Claim C10 — shared mutable `_content` -/

/-- Every read after the first returns the head of the shared content
list, which is whatever the very first read in the process appended. -/
theorem runReads_const (ts : List String) (content : List String) (h : content ≠ []) :
    runReads ts content = List.replicate ts.length content.headI := by
  induction ts generalizing content with
  | nil => rfl
  | cons t ts2 ih =>
    have hne : content ++ [t] ≠ [] := by simp
    have hh : (content ++ [t]).headI = content.headI := by
      cases content with
      | nil => exact absurd rfl h
      | cons c cs => rfl
    simp [runReads, FileInput_read, ih (content ++ [t]) hne, hh, List.replicate_succ]

/-- C10: starting from the empty class-level `_content` list, a process
that performs a first `read()` on a file with text `t` and then any
further `read()` calls — on the same or on other `FileInput` instances,
over files whose current texts are `ts` — gets back `t` from every
single call: all later reads return the content captured by the very
first read, not the current content of the file read. -/
theorem fileInput_read_stale (t : String) (ts : List String) :
    runReads (t :: ts) [] = t :: List.replicate ts.length t := by
  have h1 : runReads (t :: ts) [] = t :: runReads ts [t] := rfl
  rw [h1, runReads_const ts [t] (by simp)]
  rfl

end MMElemental
